import Mathlib

/-!
Verification development for the python-skill-builder sandboxed grading engine.

The definitions below are a shallow embedding of the Python source:
  - `src/app.py` (validate_source, restricted_import, run_user_and_tests,
    capture_execution_results),
  - `src/app/services/sandbox.py` (Sandbox.validate_code, Sandbox.execute,
    restricted_import),
  - `src/app/services/test_runner.py` (TestRunner.run_tests),
  - `src/app/services/code_metrics.py` (calculate_complexity,
    calculate_duplication).

Parsing of Python text into a syntax tree is not re-implemented: a parsed
program is represented by the linear sequence of nodes that `ast.walk`
yields, wrapped in `Option` (`Option.none` models a SyntaxError from
`ast.parse`). Machine integers are modelled by `Int`/`Nat` (Python ints are
unbounded, so no wrap-around is needed); the float percentages of
code_metrics are modelled by `Rat`.
-/

namespace PSB

/-- Kinds of syntax-tree nodes that the policy validator and the complexity
metric inspect, in the order produced by a walk of the parse tree. Every
node kind that none of the embedded functions distinguishes is collapsed
into `otherN`. -/
inductive Node
  | globalN
  | nonlocalN
  | withN
  | asyncWithN
  | importN (names : List String)
  | importFromN (module : String) (names : List String)
  | ifN
  | forN
  | whileN
  | exceptHandlerN
  | boolOpN (operandCount : Nat)
  | otherN
deriving DecidableEq, Repr

/-- The ALLOWED_IMPORTS table of src/app.py lines 38-42 (identical in
src/app/services/sandbox.py lines 34-38): module name mapped to the list of
allowed symbols, `Option.none` being the Python `None` sentinel that allows
every symbol of the module. -/
def ALLOWED_IMPORTS : List (String × Option (List String)) :=
  [("functools", some ["wraps"]),
   ("time", some ["sleep", "time", "perf_counter"]),
   ("numpy", Option.none)]

/-- Membership test `module in ALLOWED_IMPORTS` (a Python dict key test). -/
def allowedModule (m : String) : Bool :=
  ALLOWED_IMPORTS.any (fun p => p.1 == m)

/-- Lookup `ALLOWED_IMPORTS[module]`, the allowed-symbol list of a module
(`Option.none` when the sentinel allows everything). Only called on keys
that are present, mirroring the source; on an absent key it returns the
sentinel, a case the callers never reach. -/
def allowedSymbols (m : String) : Option (List String) :=
  match ALLOWED_IMPORTS.find? (fun p => p.1 == m) with
  | some p => p.2
  | Option.none => Option.none

/-- Distinct failure kinds of validate_source / Sandbox.validate_code. Each
constructor corresponds to one of the distinct `raise ValueError(...)` sites
of src/app.py lines 67-94 (same structure in sandbox.py lines 80-104). -/
inductive VErr
  | syntaxInvalid (detail : String)
  | disallowedFeature (kind : String)
  | disallowedImport (module : String)
  | disallowedImportFrom (module : String)
  | disallowedSymbol (name : String) (module : String)
deriving DecidableEq, Repr

/-- The per-node checks performed inside the `for node in ast.walk(tree)`
loop of validate_source (src/app.py lines 72-94): disallowed node kinds
(DISALLOWED_NODES = Global, Nonlocal, With, AsyncWith), `import` of a module
outside ALLOWED_IMPORTS, `from ... import` of a module outside
ALLOWED_IMPORTS or of a symbol outside a restrictive allowed-symbol list. -/
def validateNode : Node → Except VErr Unit
  | .globalN => .error (.disallowedFeature "Global")
  | .nonlocalN => .error (.disallowedFeature "Nonlocal")
  | .withN => .error (.disallowedFeature "With")
  | .asyncWithN => .error (.disallowedFeature "AsyncWith")
  | .importN names =>
      match names.find? (fun m => !allowedModule m) with
      | some m => .error (.disallowedImport m)
      | Option.none => .ok ()
  | .importFromN m names =>
      if !allowedModule m then .error (.disallowedImportFrom m)
      else
        match allowedSymbols m with
        | Option.none => .ok ()
        | some allowed =>
            match names.find? (fun n => !allowed.contains n) with
            | some n => .error (.disallowedSymbol n m)
            | Option.none => .ok ()
  | _ => .ok ()

/-- The walk loop of validate_source: nodes are checked in walk order and
the first offending node raises. -/
def validateWalk : List Node → Except VErr Unit
  | [] => .ok ()
  | n :: rest =>
      match validateNode n with
      | .error e => .error e
      | .ok _ => validateWalk rest

/-- validate_source (src/app.py lines 61-96). The argument is the parse
result: `Option.none` models `ast.parse` raising SyntaxError, which the
source converts into a ValueError whose message starts with "SyntaxError";
`some nodes` is the walk sequence of the parse tree. Sandbox.validate_code
(src/app/services/sandbox.py lines 67-106) performs the identical checks
with slightly different message text, so it is embedded by this same
function. -/
def validate_source (parsed : Option (List Node)) : Except VErr Unit :=
  match parsed with
  | Option.none => .error (.syntaxInvalid "source does not parse")
  | some nodes => validateWalk nodes

/-- The restricted __import__ gate installed into the submission namespace
(src/app.py lines 172-175; identical logic in src/app/services/sandbox.py
lines 133-136): the import is delegated to the real __import__ when the
module name is an ALLOWED_IMPORTS key, or when the fromlist is non-empty
and some member of the fromlist is an ALLOWED_IMPORTS key; otherwise
ImportError is raised. The success value models the module object returned
by the real import. -/
def restricted_import (name : String) (fromlist : List String) :
    Except String Unit :=
  if allowedModule name || (!fromlist.isEmpty && fromlist.any allowedModule)
  then .ok ()
  else .error ("Import of " ++ name ++ " is not allowed")

/-- The static import statement that corresponds to a dynamic
`__import__(name, fromlist=fromlist)` call: a plain `import name` when the
fromlist is empty, a `from name import fromlist...` otherwise. -/
def importCallNode (name : String) (fromlist : List String) : Node :=
  if fromlist.isEmpty then .importN [name] else .importFromN name fromlist

/-- Python runtime values as far as the grading engine inspects them:
None, int, bool, str, list, tuple and str-keyed dict. Python floats are not
needed by any embedded code path and are omitted. -/
inductive PyVal
  | vNone
  | vInt (n : Int)
  | vBool (b : Bool)
  | vStr (s : String)
  | vList (xs : List PyVal)
  | vTuple (xs : List PyVal)
  | vDict (entries : List (String × PyVal))

/-- Python exception values, one constructor per exception class the
embedded code distinguishes. `timeoutExc` models the TimeoutException class
that src/app/services/sandbox.py defines (lines 14-16) and never raises. -/
inductive PyExc
  | typeError (msg : String)
  | valueError (msg : String)
  | attributeError (msg : String)
  | keyError (msg : String)
  | importError (msg : String)
  | runtimeError (msg : String)
  | syntaxError (msg : String)
  | timeoutExc (msg : String)
  | otherExc (msg : String)
deriving DecidableEq, Repr

/-- Python `str(v)` as far as the engine needs it: exact on the scalar
values the claims exercise; container and compound values are collapsed to
a placeholder rendering, which no embedded claim inspects. -/
def pyStr : PyVal → String
  | .vStr s => s
  | .vNone => "None"
  | .vBool b => if b then "True" else "False"
  | .vInt n => toString n
  | .vList _ => "<list>"
  | .vTuple _ => "<tuple>"
  | .vDict _ => "<dict>"

/-- Python `v.get(key, default)`: dictionary lookup with a default; on a
value that is not a dict the attribute lookup of `get` raises
AttributeError. -/
def pyGet (v : PyVal) (key : String) (default : PyVal) : Except PyExc PyVal :=
  match v with
  | .vDict entries =>
      match entries.find? (fun p => p.1 == key) with
      | some p => .ok p.2
      | Option.none => .ok default
  | _ => .error (.attributeError ("object has no attribute get: " ++ key))

/-- Python `int(v)`: identity on ints, 0/1 on bools, decimal parse on
strings (ValueError on a non-numeric string), TypeError on every other
value. -/
def pyInt : PyVal → Except PyExc Int
  | .vInt n => .ok n
  | .vBool b => .ok (if b then 1 else 0)
  | .vStr s =>
      match s.toInt? with
      | some n => .ok n
      | Option.none => .error (.valueError ("invalid literal for int: " ++ s))
  | .vNone => .error (.typeError "int argument cannot be None")
  | _ => .error (.typeError "int argument has wrong type")

/-- The result normalization of run_user_and_tests (src/app.py lines
210-213): `score = int(result.get("score", 0))`,
`feedback = str(result.get("feedback", ""))`,
`max_score = int(result.get("max_score", 100))`, in source order. No
clamping of any kind is performed. -/
def appNormalize (result : PyVal) : Except PyExc (Int × String × Int) := do
  let sv ← pyGet result "score" (.vInt 0)
  let score ← pyInt sv
  let fv ← pyGet result "feedback" (.vStr "")
  let feedback := pyStr fv
  let mv ← pyGet result "max_score" (.vInt 100)
  let maxScore ← pyInt mv
  return (score, feedback, maxScore)

/-- A value bound in the submission namespace, classified the way
capture_execution_results classifies it (src/app.py lines 283-359):
a callable that is not a type (`func`, with its call behavior), a type
(`cls`, with the names of its callable attributes), or a non-callable
variable (`var`, with its type name and str rendering). -/
inductive PyObj
  | func (f : List PyVal → Except PyExc PyVal)
  | cls (attrs : List String)
  | var (tyName : String) (reprStr : String)

/-- A submission namespace: identifier/value bindings in dict insertion
order. -/
abbrev UserNS := List (String × PyObj)

/-- Python `type(v).__name__` for the embedded values. -/
def pyTypeName : PyVal → String
  | .vNone => "NoneType"
  | .vInt _ => "int"
  | .vBool _ => "bool"
  | .vStr _ => "str"
  | .vList _ => "list"
  | .vTuple _ => "tuple"
  | .vDict _ => "dict"

/-- _serialize_arguments, per element (src/app.py lines 232-257): lists and
tuples become lists, dicts, strings, numbers, bools and None pass through,
anything else becomes its str rendering. -/
def serializeArg : PyVal → PyVal
  | .vList xs => .vList xs
  | .vTuple xs => .vList xs
  | .vDict d => .vDict d
  | .vStr s => .vStr s
  | .vInt n => .vInt n
  | .vBool b => .vBool b
  | .vNone => .vNone

/-- The func_info record built while probing one callable (src/app.py lines
289-340). A field of value `Option.none` models the dict key being absent;
`returnValue` is doubly optional because the source stores the Python value
None under the key when the callable returned None. -/
structure FuncInfo where
  name : String
  returnValue : Option (Option PyVal) := Option.none
  returnType : Option String := Option.none
  arguments : Option (List PyVal) := Option.none
  expectedResults : Option (List PyVal) := Option.none

/-- The fixed probe battery test_inputs (src/app.py lines 295-302):
no arguments, empty list, small numeric list, short string, single number,
zero. -/
def testInputs : List (List PyVal) :=
  [ [],
    [PyVal.vList []],
    [PyVal.vList [.vInt 1, .vInt 2, .vInt 3, .vInt 4, .vInt 5]],
    [PyVal.vStr "test"],
    [PyVal.vInt 5],
    [PyVal.vInt 0] ]

/-- Recording of one successful probe attempt into func_info (src/app.py
lines 306-319): lists and tuples are serialized as lists, dicts kept,
anything else stored as its str rendering (None stored as None), together
with the return type name and the serialized arguments. -/
def recordReturn (info : FuncInfo) (args : List PyVal) (v : PyVal) :
    FuncInfo :=
  let base :=
    match v with
    | .vList xs =>
        { info with returnValue := some (some (.vList xs)),
                    returnType := some "list" }
    | .vTuple xs =>
        { info with returnValue := some (some (.vList xs)),
                    returnType := some "tuple" }
    | .vDict d =>
        { info with returnValue := some (some (.vDict d)),
                    returnType := some "dict" }
    | .vNone =>
        { info with returnValue := some Option.none,
                    returnType := some "NoneType" }
    | w =>
        { info with returnValue := some (some (.vStr (pyStr w))),
                    returnType := some (pyTypeName w) }
  { base with arguments := some (args.map serializeArg) }

/-- The probe loop over test_inputs (src/app.py lines 304-336): each
attempt is guarded by its own try/except; an exception moves on to the
next input; a successful call records the result, then stops unless the
result is an empty list or tuple, in which case the next input is tried
with the recorded fields kept. -/
def probeLoop (f : List PyVal → Except PyExc PyVal) :
    List (List PyVal) → FuncInfo → FuncInfo
  | [], info => info
  | args :: rest, info =>
      match f args with
      | .error _ => probeLoop f rest info
      | .ok v =>
          let info2 := recordReturn info args v
          match v with
          | .vList xs =>
              if xs.length > 0 then info2 else probeLoop f rest info2
          | .vTuple xs =>
              if xs.length > 0 then info2 else probeLoop f rest info2
          | _ => info2

/-- The class_info record (src/app.py lines 344-358): class name plus its
callable attributes whose names do not start with an underscore. -/
structure ClassInfo where
  name : String
  methods : List String

/-- The variable record (src/app.py lines 361-372): name, type name and a
str rendering truncated to 97 characters plus an ellipsis when 100 or
longer. -/
structure VarInfo where
  name : String
  tyName : String
  value : String

/-- Truncation of a variable rendering (src/app.py line 365). -/
def truncateRepr (s : String) : String :=
  if s.length < 100 then s else (s.take 97).append "..."

/-- Probing of one callable: run the probe battery starting from the bare
func_info, then attach expected results when the extraction heuristic has
an entry for this function name (src/app.py lines 338-340). -/
def probeFunc (expected : List (String × List PyVal)) (name : String)
    (f : List PyVal → Except PyExc PyVal) : FuncInfo :=
  let info := probeLoop f testInputs { name := name }
  match expected.find? (fun p => p.1 == name) with
  | some p => { info with expectedResults := some p.2 }
  | Option.none => info

/-- The loop body of capture_execution_results over the namespace entries
(src/app.py lines 283-372), written as structural recursion that preserves
iteration order: dunder names are skipped, callables are probed, classes
and variables are recorded. Returns the functions, classes and variables
association lists. -/
def captureEntries (expected : List (String × List PyVal)) :
    UserNS →
      List (String × FuncInfo) × List (String × ClassInfo) ×
        List (String × VarInfo)
  | [] => ([], [], [])
  | (name, obj) :: rest =>
      let r := captureEntries expected rest
      if name.startsWith "__" then r
      else
        match obj with
        | .func f => ((name, probeFunc expected name f) :: r.1, r.2.1, r.2.2)
        | .cls attrs =>
            (r.1,
             (name, ⟨name, attrs.filter (fun a => !a.startsWith "_")⟩) :: r.2.1,
             r.2.2)
        | .var ty rep =>
            (r.1, r.2.1, (name, ⟨name, ty, truncateRepr rep⟩) :: r.2.2)

/-- The execution_results payload returned by capture_execution_results. -/
structure ExecResults where
  functions : List (String × FuncInfo)
  classes : List (String × ClassInfo)
  vars : List (String × VarInfo)
  userCode : String

/-- capture_execution_results (src/app.py lines 260-374). -/
def capture_execution_results (userNs : UserNS) (userCode : String)
    (expected : List (String × List PyVal)) : ExecResults :=
  let t := captureEntries expected userNs
  { functions := t.1, classes := t.2.1, vars := t.2.2,
    userCode := userCode }

/-- Execution events observable from outside a grading call: running the
submission, running the grader, invoking the grader entrypoint. Static
validation performs none of them. -/
inductive Event
  | execUser
  | execTests
  | invokedGrade
deriving DecidableEq, Repr

/-- Failure kinds of run_user_and_tests: the ValueError raised by
validate_source, an exception propagating out of an exec or of the grade
call, and the distinct RuntimeError raised when the test namespace lacks a
callable grade entrypoint (src/app.py lines 205-206). -/
inductive Failure
  | validation (e : VErr)
  | execError (e : PyExc)
  | contractViolation
deriving DecidableEq, Repr

/-- What the test namespace holds under the name grade after the test code
ran: nothing, a non-callable value, or a callable from submission
namespaces to a raw result value. -/
inductive GradeBinding
  | absent
  | notCallable
  | callable (grade : UserNS → Except PyExc PyVal)

/-- A submission program: its parse result (walk sequence) and the effect
of exec-ing it in a fresh submission namespace — the resulting namespace,
or the exception it raised. -/
structure UserProgram where
  source : String
  nodes : Option (List Node)
  run : Except PyExc UserNS

/-- A grader program: its source text (consumed by the expected-results
extraction heuristic) and the effect of exec-ing it in the test
namespace — the grade binding it leaves behind, or the exception it
raised. -/
structure TestProgram where
  source : String
  run : Except PyExc GradeBinding

/-- The successful output of run_user_and_tests (src/app.py lines
224-229). -/
structure GradeOutput where
  score : Int
  maxScore : Int
  feedback : String
  executionResults : ExecResults

/-- run_user_and_tests (src/app.py lines 152-229), with its event trace.
The regex-based extract_expected_results heuristic (lines 98-149) is
abstracted as the `extract` parameter: its output feeds only the optional
diagnostics and is consulted only when score < max_score (lines 217-219).
Steps in source order: validate the user AST; exec user code; exec test
code; require a callable grade binding; invoke grade on the user
namespace; normalize; capture execution results. -/
def run_user_and_tests (extract : String → List (String × List PyVal))
    (user : UserProgram) (tests : TestProgram) :
    Except Failure GradeOutput × List Event :=
  match validate_source user.nodes with
  | .error e => (.error (.validation e), [])
  | .ok _ =>
      match user.run with
      | .error e => (.error (.execError e), [.execUser])
      | .ok userNs =>
          match tests.run with
          | .error e => (.error (.execError e), [.execUser, .execTests])
          | .ok binding =>
              match binding with
              | .absent =>
                  (.error .contractViolation, [.execUser, .execTests])
              | .notCallable =>
                  (.error .contractViolation, [.execUser, .execTests])
              | .callable grade =>
                  match grade userNs with
                  | .error e =>
                      (.error (.execError e),
                       [.execUser, .execTests, .invokedGrade])
                  | .ok raw =>
                      match appNormalize raw with
                      | .error e =>
                          (.error (.execError e),
                           [.execUser, .execTests, .invokedGrade])
                      | .ok (score, feedback, maxScore) =>
                          let expected :=
                            if score < maxScore then extract tests.source
                            else []
                          let execResults :=
                            capture_execution_results userNs user.source
                              expected
                          (.ok { score := score, maxScore := maxScore,
                                 feedback := feedback,
                                 executionResults := execResults },
                           [.execUser, .execTests, .invokedGrade])

/-- Does a node import a module absent from the allow-list (the situation
of the deny-before-run property)? -/
def importsDisallowedModule : Node → Bool
  | .importN names => names.any (fun m => !allowedModule m)
  | .importFromN m _ => !allowedModule m
  | _ => false

/-- The SAFE_BUILTINS whitelist, by name (src/app/services/sandbox.py lines
41-56, identical to src/app.py lines 44-59). The bound host values are
process primitives with no Lean counterpart; the claims only depend on the
key set, so each entry is modelled as a tagged placeholder value. -/
def SAFE_BUILTINS : List String :=
  ["len", "range", "sum", "min", "max", "abs",
   "enumerate", "zip", "sorted", "all", "any",
   "map", "filter",
   "list", "dict", "set", "tuple", "str", "int",
   "float", "bool", "print", "isinstance", "type",
   "repr", "getattr", "setattr", "hasattr",
   "Exception", "ValueError", "TypeError",
   "KeyError", "IndexError", "AttributeError",
   "NameError", "ImportError",
   "__build_class__", "property", "classmethod", "staticmethod", "super"]

/-- A namespace dictionary: string-keyed bindings, first match wins on
lookup. -/
abbrev SDict := List (String × PyVal)

/-- A reference to a dictionary object in the interpreter heap. Dict
objects have identity in Python; the heap makes mutation and aliasing
explicit so that frame conditions are statable. -/
abbrev Ref := Nat

/-- A minimal interpreter heap of dictionary objects: an allocation
counter and a store, where the most recent binding of a reference wins. -/
structure Heap where
  next : Ref
  store : List (Ref × SDict)

/-- Dictionary object read. An unallocated reference reads as empty, a case
the embedded code never exercises. -/
def Heap.get (h : Heap) (r : Ref) : SDict :=
  match h.store.find? (fun p => p.1 == r) with
  | some p => p.2
  | Option.none => []

/-- Allocation of a fresh dictionary object. -/
def Heap.alloc (h : Heap) (d : SDict) : Heap × Ref :=
  ({ next := h.next + 1, store := (h.next, d) :: h.store }, h.next)

/-- In-place update of a dictionary object. -/
def Heap.set (h : Heap) (r : Ref) (d : SDict) : Heap :=
  { h with store := (r, d) :: h.store }

/-- The empty heap. -/
def emptyHeap : Heap := { next := 0, store := [] }

/-- The user_builtins dict of Sandbox.execute (src/app/services/sandbox.py
lines 139-140): a copy of SAFE_BUILTINS with the restricted __import__ gate
added. Values are name placeholders for host primitives. -/
def userBuiltins : SDict :=
  SAFE_BUILTINS.map (fun n => (n, PyVal.vStr ("builtin " ++ n)))
    ++ [("__import__", PyVal.vStr "restricted import gate")]

/-- The exec_namespace dict literal of Sandbox.execute
(src/app/services/sandbox.py lines 142-146):
`{"__builtins__": user_builtins, "__name__": "__main__", **namespace}` —
a freshly constructed dict whose entries are the two fixed bindings
overridden by the seed namespace entries. Under first-match lookup the
override is modelled by listing the seed entries first. -/
def execNamespace (seed : SDict) : SDict :=
  seed ++ [("__builtins__", PyVal.vDict userBuiltins),
           ("__name__", PyVal.vStr "__main__")]

/-- A program handed to Sandbox.execute: its parse result, and the effect
of exec-ing its compiled body on the execution namespace — the final state
of that namespace together with captured stdout and stderr, or the
exception the body raised. The body receives only the execution namespace
dict, which is how CPython scopes an `exec(code, ns, ns)` call. -/
structure SandboxProgram where
  nodes : Option (List Node)
  runBody : SDict → Except PyExc (SDict × String × String)

/-- Failure kinds of Sandbox.execute: the ValueError raised by
validate_code, or whatever exception the executed body raised, re-raised
unchanged (src/app/services/sandbox.py lines 152-156). -/
inductive ExecFail
  | validationError (e : VErr)
  | raised (e : PyExc)
deriving DecidableEq, Repr

/-- The seed dictionary Sandbox.execute starts from: the caller-supplied
namespace, or a fresh empty dict when none is given
(src/app/services/sandbox.py lines 127-129). -/
def seedDict (h : Heap) (seed : Option Ref) : SDict :=
  match seed with
  | Option.none => []
  | some r => h.get r

/-- Sandbox.execute (src/app/services/sandbox.py lines 108-158):
validate the code, build a freshly allocated execution namespace from the
fixed bindings plus the seed entries, run the body on it, and return the
updated heap, the execution namespace reference and the captured output.
The timeoutSeconds parameter is the value stored by Sandbox.__init__
(lines 58-65); note that no step below reads it — the source wires it to
no preemption mechanism. -/
def Sandbox.execute (timeoutSeconds : Nat) (prog : SandboxProgram)
    (h : Heap) (seed : Option Ref) :
    Except ExecFail (Heap × Ref × String × String) :=
  match validate_source prog.nodes with
  | .error e => .error (.validationError e)
  | .ok _ =>
      let d0 := execNamespace (seedDict h seed)
      let alloc := h.alloc d0
      match prog.runBody d0 with
      | .error e => .error (.raised e)
      | .ok (d1, out, err) => .ok (alloc.1.set alloc.2 d1, alloc.2, out, err)

/-- The ValueError message texts of Sandbox.validate_code
(src/app/services/sandbox.py lines 80-104), used by the error handlers of
TestRunner.run_tests. -/
def vErrMsg : VErr → String
  | .syntaxInvalid d => "SyntaxError: " ++ d
  | .disallowedFeature k => "Disallowed language feature: " ++ k
  | .disallowedImport m => "Import " ++ m ++ " not allowed"
  | .disallowedImportFrom m => "Import from " ++ m ++ " not allowed"
  | .disallowedSymbol n m => "Import " ++ n ++ " from " ++ m ++ " not allowed"

/-- Python `str(e)` for an exception value. -/
def excMsg : PyExc → String
  | .typeError m => m
  | .valueError m => m
  | .attributeError m => m
  | .keyError m => m
  | .importError m => m
  | .runtimeError m => m
  | .syntaxError m => m
  | .timeoutExc m => m
  | .otherExc m => m

/-- The grade binding the test namespace holds after TestRunner.run_tests
exec-ed the test code; the callable receives the user namespace dict. -/
inductive RGradeBinding
  | absent
  | notCallable
  | callable (grade : SDict → Except PyExc PyVal)

/-- A grader program handed to TestRunner.run_tests: the effect of
exec-ing the test code — the grade binding it leaves, or the exception it
raised (a SyntaxError when the test source does not compile). -/
structure RTestProgram where
  run : Except PyExc RGradeBinding

/-- The result dictionary of TestRunner.run_tests (initialized at
src/app/services/test_runner.py lines 41-50, mutated in place as the run
proceeds). `execution_time` is wall-clock time and is not modelled. A
field of value `Option.none` models the key holding None or being
absent. -/
structure RunnerResult where
  success : Bool
  score : Int
  maxScore : Int
  feedback : String
  tests : Option PyVal
  executionResults : Option PyVal
  error : Option String
  trace : List String

/-- The result dictionary as first initialized
(src/app/services/test_runner.py lines 41-50). -/
def initialRunnerResult : RunnerResult :=
  { success := false, score := 0, maxScore := 100, feedback := "",
    tests := Option.none, executionResults := Option.none,
    error := Option.none, trace := [] }

/-- The except clauses of TestRunner.run_tests (src/app/services/
test_runner.py lines 92-100): a SyntaxError message is prefixed with
"SyntaxError: ", a ValueError message with "Validation Error: ", any other
exception is rendered bare. -/
def handlerMessage : PyExc → String
  | .syntaxError m => "SyntaxError: " ++ m
  | .valueError m => "Validation Error: " ++ m
  | e => excMsg e

/-- Application of the matching except clause to the result dictionary as
it stands when the exception arrives: the error and trace fields are set,
every other field keeps the value already assigned. The traceback text is
not modelled beyond being non-empty. -/
def failWith (r : RunnerResult) (e : PyExc) : RunnerResult :=
  { r with error := some (handlerMessage e), trace := ["traceback"] }

/-- TestRunner.run_tests (src/app/services/test_runner.py lines 29-103).
The stages in source order: Sandbox.execute on the user code (validation
plus execution, from an empty seed namespace); exec of the test code;
the grade-entrypoint check raising
RuntimeError("Test script must define grade(user_ns) function"); the grade
call; then result extraction in this order — success set to True, score,
max_score, feedback, optional tests and execution_results fields. Any
exception lands in the except clauses, which fill the error field of the
result dictionary as already assigned and return it. -/
def TestRunner.run_tests (timeoutSeconds : Nat) (user : SandboxProgram)
    (tests : RTestProgram) : RunnerResult :=
  let r0 := initialRunnerResult
  match Sandbox.execute timeoutSeconds user emptyHeap Option.none with
  | .error (.validationError e) => failWith r0 (.valueError (vErrMsg e))
  | .error (.raised e) => failWith r0 e
  | .ok (h1, nsRef, _, _) =>
      let userNs := h1.get nsRef
      match tests.run with
      | .error e => failWith r0 e
      | .ok .absent =>
          failWith r0
            (.runtimeError "Test script must define grade(user_ns) function")
      | .ok .notCallable =>
          failWith r0
            (.runtimeError "Test script must define grade(user_ns) function")
      | .ok (.callable grade) =>
          match grade userNs with
          | .error e => failWith r0 e
          | .ok raw =>
              let r1 := { r0 with success := true }
              match pyGet raw "score" (.vInt 0) with
              | .error e => failWith r1 e
              | .ok sv =>
                  match pyInt sv with
                  | .error e => failWith r1 e
                  | .ok s =>
                      let r2 := { r1 with score := s }
                      match pyGet raw "max_score" (.vInt 100) with
                      | .error e => failWith r2 e
                      | .ok mv =>
                          match pyInt mv with
                          | .error e => failWith r2 e
                          | .ok m =>
                              let r3 := { r2 with maxScore := m }
                              match pyGet raw "feedback" (.vStr "") with
                              | .error e => failWith r3 e
                              | .ok fv =>
                                  let r4 :=
                                    { r3 with feedback := pyStr fv }
                                  let r5 :=
                                    match raw with
                                    | .vDict entries =>
                                        match entries.find?
                                            (fun p => p.1 == "tests") with
                                        | some p =>
                                            { r4 with tests := some p.2 }
                                        | Option.none => r4
                                    | _ => r4
                                  match raw with
                                  | .vDict entries =>
                                      match entries.find? (fun p =>
                                          p.1 == "execution_results") with
                                      | some p =>
                                          { r5 with
                                            executionResults := some p.2 }
                                      | Option.none => r5
                                  | _ => r5

/-- The per-node contribution of the complexity walk
(src/app/services/code_metrics.py lines 35-39): 1 for If, For, While and
ExceptHandler nodes, operand count minus one for BoolOp nodes, 0
otherwise. A Python BoolOp always carries at least two operands, so the
truncated subtraction is exact. -/
def nodeComplexity : Node → Nat
  | .ifN => 1
  | .forN => 1
  | .whileN => 1
  | .exceptHandlerN => 1
  | .boolOpN k => k - 1
  | _ => 0

/-- CodeMetrics.calculate_complexity (src/app/services/code_metrics.py
lines 16-41): 0 when the source does not parse, otherwise a walk starting
from the base complexity 1 and adding each node contribution. -/
def calculate_complexity (parsed : Option (List Node)) : Nat :=
  match parsed with
  | Option.none => 0
  | some nodes => nodes.foldl (fun acc n => acc + nodeComplexity n) 1

/-- Is a node one of the four branching kinds the spec sentence counts? -/
def isBranchNode : Node → Bool
  | .ifN => true
  | .forN => true
  | .whileN => true
  | .exceptHandlerN => true
  | _ => false

/-- The boolean-operator term of the spec sentence: operand count minus one
for a BoolOp node, zero otherwise. -/
def boolOpExtra : Node → Nat
  | .boolOpN k => k - 1
  | _ => 0

/-- Modelled from the claim wording of C6 for refinement comparison:
1 (base path) + count of if/for/while/except nodes + the sum over boolean
operator expressions of (operand count − 1). -/
def specComplexity (nodes : List Node) : Nat :=
  1 + nodes.countP (fun n => isBranchNode n) + (nodes.map boolOpExtra).sum

/-- The walk sequence of the Scenario E source
"def f(x):\n if x:\n  pass\n for i in range(1): pass": Module and
FunctionDef, the argument list and its single arg, the If with its Name
test and Pass body, the For with its Name target, range Call (with its
Name callee and constant argument) and Pass body. Only the If and For
nodes carry weight. -/
def scenarioE_nodes : List Node :=
  [Node.otherN, Node.otherN, Node.otherN, Node.ifN, Node.forN,
   Node.otherN, Node.otherN, Node.otherN, Node.otherN, Node.otherN,
   Node.otherN, Node.otherN, Node.otherN]

/-- Python str.strip(): drop leading and trailing whitespace characters.
Text is handled as character lists so that every step is structurally
computable. -/
def pyStrip (cs : List Char) : List Char :=
  ((cs.dropWhile Char.isWhitespace).reverse.dropWhile
    Char.isWhitespace).reverse

/-- Python str.split over the newline separator: a list of lines, one more
than the number of newline characters, empty segments preserved. -/
def splitOnNl : List Char → List (List Char)
  | [] => [[]]
  | c :: rest =>
      let r := splitOnNl rest
      if c == '\n' then [] :: r
      else
        match r with
        | [] => [[c]]
        | l :: ls => (c :: l) :: ls

/-- Python stripped.startswith of the comment character. -/
def startsWithHash (cs : List Char) : Bool :=
  cs.head? == some '#'

/-- The stripped non-blank lines of a split source
(`stripped` with `if stripped` alone). -/
def nonBlankStripped (lines : List (List Char)) : List (List Char) :=
  (lines.map pyStrip).filter (fun s => !s.isEmpty)

/-- The stripped lines that survive
`if stripped and not stripped.startswith(..)` — the keys of the
line_counts dict of calculate_duplication (src/app/services/
code_metrics.py lines 96-100). -/
def dupKeys (lines : List (List Char)) : List (List Char) :=
  (lines.map pyStrip).filter (fun s => !s.isEmpty && !startsWithHash s)

/-- `sum(count - 1 for count in line_counts.values() if count > 1)`
(src/app/services/code_metrics.py line 102): the dict of per-line counts
is modelled by dedup and count, which agree with its value multiset; the
occurrence count of a present key is at least one, so the truncated
subtraction matches the guarded Python sum. -/
def dupCount (keys : List (List Char)) : Nat :=
  (keys.dedup.map (fun k => keys.count k - 1)).sum

/-- CodeMetrics.calculate_duplication (src/app/services/code_metrics.py
lines 80-105): split the whole-stripped source on newlines; fewer than two
lines yield 0; count, over the distinct stripped non-blank non-comment
lines, the occurrences beyond the first; divide by the TOTAL number of
lines (blank and comment lines included) and scale to percent, capped at
100. -/
def calculate_duplication (code : String) : Rat :=
  let lines := splitOnNl (pyStrip code.data)
  if lines.length < 2 then 0
  else
    let duplicates : Nat := dupCount (dupKeys lines)
    let duplication : Rat :=
      if lines.length ≠ 0 then
        ((duplicates : Rat) / (lines.length : Rat)) * 100
      else 0
    min 100 duplication

/-- Modelled from the claim wording of C5 for refinement comparison:
min(100, 100 × (sum over distinct non-blank, non-comment lines of
(occurrence_count − 1)) / (number of non-blank lines)) — the denominator
counting only non-blank lines. The guard on sources of fewer than two
lines is kept so the comparison isolates the denominator. -/
def specDuplication (code : String) : Rat :=
  let lines := splitOnNl (pyStrip code.data)
  if lines.length < 2 then 0
  else
    let nonBlank := nonBlankStripped lines
    let duplicates : Nat :=
      dupCount (nonBlank.filter (fun s => !startsWithHash s))
    if nonBlank.length = 0 then 0
    else min 100 (100 * ((duplicates : Rat) / (nonBlank.length : Rat)))

/-- Claim C5 amended to the source behavior: identical to the spec formula
except that the denominator is the total line count of the whole-stripped
source, blank and comment lines included. -/
def specDuplicationAmended (code : String) : Rat :=
  let lines := splitOnNl (pyStrip code.data)
  if lines.length < 2 then 0
  else
    let nonBlank := nonBlankStripped lines
    let duplicates : Nat :=
      dupCount (nonBlank.filter (fun s => !startsWithHash s))
    min 100 (100 * ((duplicates : Rat) / (lines.length : Rat)))

/-- A source whose duplication the corrected and the claimed formula rate
differently: two identical statements separated by a blank line. -/
def dupExample : String := "a = 1\n\na = 1"

/-- A trivial submission program: parses to an empty walk, runs without
effect. Used as the concrete submission of several witnesses. -/
def trivialSandboxUser : SandboxProgram :=
  { nodes := some [], runBody := fun d => .ok (d, "", "") }

/-- A submission program whose source is `import os`: its walk is the
single disallowed Import node. The body behavior is irrelevant because
validation rejects it first. -/
def importOsUser : SandboxProgram :=
  { nodes := some [Node.importN ["os"]],
    runBody := fun d => .ok (d, "", "") }

/-- A grader whose grade function returns the non-dict value 42, so that
result extraction fails after success has been set. -/
def nonDictGrader : RTestProgram :=
  { run := .ok (.callable (fun _ => .ok (PyVal.vInt 42))) }

/-- A grader whose grade function returns {"score": -5}: a raw score below
zero that normalization passes through. -/
def negScoreGrader : RTestProgram :=
  { run := .ok (.callable (fun _ =>
      .ok (PyVal.vDict [("score", PyVal.vInt (-5))]))) }

/-- A heap holding one seed namespace dict at reference 0, for concrete
frame-condition runs. -/
def seedHeapEx : Heap :=
  { next := 1, store := [(0, [("x", PyVal.vInt 7)])] }

/-- A trivial submission program at the grading-protocol level: empty walk,
empty resulting namespace. -/
def emptyUserProgram : UserProgram :=
  { source := "", nodes := some [], run := .ok [] }

/-- A submission `import os` at the grading-protocol level. -/
def importOsUserProgram : UserProgram :=
  { source := "import os", nodes := some [Node.importN ["os"]],
    run := .ok [] }

/-- A grader whose test code defines no grade entrypoint at all. -/
def absentTests : TestProgram := { source := "", run := .ok .absent }

/-- A callable behavior that raises on every probe input. -/
def failingProbe : List PyVal → Except PyExc PyVal :=
  fun _ => .error (.typeError "unsupported operand")

/-- A failure in TestRunner.run_tests that arrives before result
extraction begins: user validation or execution raised, test execution
raised, the grade entrypoint is missing or not callable, or the grade call
itself raised. -/
def preExtractionFailure (t : Nat) (user : SandboxProgram)
    (tests : RTestProgram) : Prop :=
  (∃ f, Sandbox.execute t user emptyHeap Option.none = .error f) ∨
  (∃ e, tests.run = .error e) ∨
  tests.run = .ok .absent ∨ tests.run = .ok .notCallable ∨
  (∃ grade h1 nsRef out err e,
    Sandbox.execute t user emptyHeap Option.none =
      .ok (h1, nsRef, out, err) ∧
    tests.run = .ok (.callable grade) ∧
    grade (h1.get nsRef) = .error e)

end PSB

/-! ## Theorems -/

namespace PSB

/-- Claim C2 counterexample: the runtime gate admits `__import__` of the
module `os`, which is absent from the allow-list, as soon as the supplied
fromlist names an allow-listed module (here `numpy`), while the static
validator rejects the corresponding `from os import numpy` statement. So
the gate does not refuse every module absent from the allow-list regardless
of the fromlist. -/
theorem C2_counterexample :
    restricted_import "os" ["numpy"] = Except.ok () ∧
    validate_source (some [importCallNode "os" ["numpy"]]) =
      Except.error (VErr.disallowedImportFrom "os") := by
  constructor <;> rfl

/-- Claim C2 (amended): restricted_import admits an import exactly when the
module name is an allow-list key or some fromlist member is an allow-list
key; consequently every import the gate refuses would also be rejected by
the static validator, but not conversely — the gate never consults the
restrictive allowed-symbol sets and can be bypassed by a fromlist that
names an allow-list key. -/
theorem C2_gate_weaker_than_validator (name : String) (fromlist : List String) :
    ((restricted_import name fromlist).isOk =
      (allowedModule name || fromlist.any allowedModule)) ∧
    ((restricted_import name fromlist).isOk = false →
      ∃ e, validate_source (some [importCallNode name fromlist]) =
        Except.error e) := by
  constructor
  · unfold restricted_import
    cases hn : allowedModule name with
    | true => simp [Except.isOk, Except.toBool]
    | false =>
        cases fromlist with
        | nil => simp [Except.isOk, Except.toBool]
        | cons f fs =>
            simp only [List.isEmpty_cons, Bool.not_false, Bool.true_and,
              Bool.false_or]
            cases h : (f :: fs).any allowedModule <;>
              simp [Except.isOk, Except.toBool, h]
  · intro hfail
    have hn : allowedModule name = false := by
      by_contra hc
      have hn' : allowedModule name = true := by
        cases h : allowedModule name with
        | true => rfl
        | false => exact absurd h hc
      unfold restricted_import at hfail
      rw [hn'] at hfail
      simp [Except.isOk, Except.toBool] at hfail
    unfold validate_source importCallNode
    cases fromlist with
    | nil =>
        refine ⟨VErr.disallowedImport name, ?_⟩
        simp only [List.isEmpty_nil, if_true]
        unfold validateWalk validateNode
        simp [List.find?, hn]
    | cons f fs =>
        refine ⟨VErr.disallowedImportFrom name, ?_⟩
        simp only [List.isEmpty_cons, if_false]
        unfold validateWalk validateNode
        simp [hn]

/-- Witness for C2_gate_weaker_than_validator at a concrete refused input:
the gate refuses `__import__("os")` with empty fromlist, and the theorem
yields the validator rejection of the corresponding `import os`. -/
theorem C2_gate_weaker_than_validator_witness :
    ∃ e, validate_source (some [importCallNode "os" []]) = Except.error e :=
  (C2_gate_weaker_than_validator "os" []).2 (by rfl)

/-- Claim C1, evaluated at the failing input: a grader returning the raw
mapping {"score": -5} is normalized by run_user_and_tests to score -5 with
max_score 100 — `int(result.get("score", 0))` with no clamp — and the same
raw mapping flows through TestRunner.run_tests into a returned score of
-5. The claimed invariant 0 ≤ score is violated; the claim matches the
spec intent (which records clamping as a deliberate correction over the
literal source), so the source is the defect. -/
theorem C1_score_not_clamped :
    appNormalize (PyVal.vDict [("score", PyVal.vInt (-5))]) =
      Except.ok (-5, "", 100) ∧
    (TestRunner.run_tests 5 trivialSandboxUser negScoreGrader).score = -5 ∧
    ¬ (0 ≤ (-5 : Int)) :=
  ⟨rfl, rfl, by decide⟩

/-- Claim C4, evaluated against the code: Sandbox.execute is extensionally
independent of the configured timeout_seconds — the stored bound is wired
to no preemption mechanism — and every failure it returns is either the
static-validation ValueError or an exception raised by the executed body
itself; in particular the sandbox never produces the TimeoutException it
defines. A submission such as `while True: pass` therefore runs without
any wall-clock bound, contradicting the claim. -/
theorem C4_timeout_not_wired (t1 t2 : Nat) (prog : SandboxProgram)
    (h : Heap) (seed : Option Ref) :
    Sandbox.execute t1 prog h seed = Sandbox.execute t2 prog h seed ∧
    (∀ f, Sandbox.execute t1 prog h seed = Except.error f →
      (∃ e, f = ExecFail.validationError e) ∨
      (∃ e, f = ExecFail.raised e ∧
        prog.runBody (execNamespace (seedDict h seed)) = Except.error e)) := by
  refine ⟨rfl, ?_⟩
  intro f hf
  unfold Sandbox.execute at hf
  cases hv : validate_source prog.nodes with
  | error e =>
      rw [hv] at hf
      exact Or.inl ⟨e, by injection hf with h1; exact h1.symm⟩
  | ok u =>
      rw [hv] at hf
      cases hb : prog.runBody (execNamespace (seedDict h seed)) with
      | error e =>
          simp only [hb] at hf
          refine Or.inr ⟨e, ?_, ?_⟩
          · injection hf with h1
            exact h1.symm
          · first
              | exact hb
              | rfl
      | ok v =>
          simp only [hb] at hf
          cases hf

/-- Witness for C4_timeout_not_wired at a concrete failing run: the
submission `import os` makes Sandbox.execute fail, and the theorem
classifies that failure as the static-validation error — not a timeout. -/
theorem C4_timeout_not_wired_witness :
    (∃ e, ExecFail.validationError (VErr.disallowedImport "os") =
      ExecFail.validationError e) ∨
    (∃ e, ExecFail.validationError (VErr.disallowedImport "os") =
      ExecFail.raised e ∧
      importOsUser.runBody
        (execNamespace (seedDict emptyHeap Option.none)) =
          Except.error e) :=
  (C4_timeout_not_wired 3 7 importOsUser emptyHeap Option.none).2
    (ExecFail.validationError (VErr.disallowedImport "os")) rfl

/-- Claim C5 counterexample: on the source "a = 1\n\na = 1" (two identical
statements separated by a blank line) calculate_duplication divides the one
duplicate by all three lines, yielding 100/3, while the claimed formula
divides by the two non-blank lines, yielding 50. The denominator of the
source counts every line of the stripped source, not only non-blank
lines. -/
theorem C5_counterexample :
    calculate_duplication dupExample = 100 / 3 ∧
    specDuplication dupExample = 50 ∧
    (100 / 3 : Rat) ≠ 50 := by
  have hA : (splitOnNl (pyStrip dupExample.data)).length = 3 := by decide
  have hB : dupCount (dupKeys (splitOnNl (pyStrip dupExample.data))) = 1 := by
    decide
  have hC : (nonBlankStripped (splitOnNl (pyStrip dupExample.data))).length
      = 2 := by decide
  have hD : dupCount ((nonBlankStripped
      (splitOnNl (pyStrip dupExample.data))).filter
        (fun s => !startsWithHash s)) = 1 := by decide
  refine ⟨?_, ?_, by norm_num⟩
  · unfold calculate_duplication
    simp only [hA, hB]
    rw [min_eq_right (by norm_num)]
    norm_num
  · unfold specDuplication
    simp only [hA, hC, hD]
    rw [if_neg (by norm_num), if_neg (by norm_num),
      min_eq_right (by norm_num)]
    norm_num

/-- Helper: the line_counts key list equals the non-blank stripped lines
with comment lines filtered out — the fused filter of the source against
the staged filters of the spec sentence. -/
theorem dupKeys_eq_staged (lines : List (List Char)) :
    dupKeys lines =
      (nonBlankStripped lines).filter (fun s => !startsWithHash s) := by
  unfold dupKeys nonBlankStripped
  rw [List.filter_filter]
  exact (List.filter_congr fun a _ => by rw [Bool.and_comm]).symm

/-- Claim C5 (amended): calculate_duplication equals the spec formula with
the denominator corrected to the total line count of the whole-stripped
source (blank and comment lines included), the sub-two-line guard kept. -/
theorem C5_amended_total_lines (code : String) :
    calculate_duplication code = specDuplicationAmended code := by
  unfold calculate_duplication specDuplicationAmended
  by_cases hlen : (splitOnNl (pyStrip code.data)).length < 2
  · simp [hlen]
  · have hne : (splitOnNl (pyStrip code.data)).length ≠ 0 := by omega
    simp only [hlen, if_false, hne, ne_eq, not_false_iff, if_true,
      dupKeys_eq_staged]
    rw [mul_comm]

/-- Helper: the complexity walk fold equals base plus branch count plus
boolean-operator extras. -/
theorem complexity_fold (a : Nat) (nodes : List Node) :
    nodes.foldl (fun acc n => acc + nodeComplexity n) a =
      a + nodes.countP (fun n => isBranchNode n) +
        (nodes.map boolOpExtra).sum := by
  induction nodes generalizing a with
  | nil => simp
  | cons n rest ih =>
      simp only [List.foldl_cons, List.countP_cons, List.map_cons,
        List.sum_cons, ih]
      cases n <;> simp [nodeComplexity, isBranchNode, boolOpExtra] <;> omega

/-- Claim C6: for every parse result, calculate_complexity is 1 plus the
count of if/for/while/except-handler nodes plus the sum over boolean
operator nodes of (operand count − 1); an unparsable source yields the
neutral value 0 without raising; and the Scenario E source evaluates to
3. -/
theorem C6_complexity (nodes : List Node) :
    calculate_complexity (some nodes) = specComplexity nodes ∧
    calculate_complexity Option.none = 0 ∧
    calculate_complexity (some scenarioE_nodes) = 3 := by
  refine ⟨?_, rfl, by rfl⟩
  show nodes.foldl (fun acc n => acc + nodeComplexity n) 1 = specComplexity nodes
  rw [complexity_fold]
  rfl

/-- Helper: the fields of the result dictionary after an except clause
fires on the freshly initialized dictionary. -/
theorem failWith_initial_fields (e : PyExc) :
    (failWith initialRunnerResult e).success = false ∧
    (failWith initialRunnerResult e).score = 0 ∧
    (failWith initialRunnerResult e).maxScore = 100 ∧
    (failWith initialRunnerResult e).error ≠ Option.none := by
  simp [failWith, initialRunnerResult]

/-- Helper: every pre-extraction failure routes TestRunner.run_tests into
an except clause applied to the freshly initialized result dictionary. -/
theorem runTests_pre_failure (t : Nat) (user : SandboxProgram)
    (tests : RTestProgram) (hpre : preExtractionFailure t user tests) :
    ∃ e, TestRunner.run_tests t user tests =
      failWith initialRunnerResult e := by
  unfold TestRunner.run_tests
  rcases hpre with ⟨f, hf⟩ | ⟨e, he⟩ | ha | hn |
    ⟨g, h1, nsRef, out, err, e, hex, htr, hg⟩
  · rw [hf]
    cases f with
    | validationError e => exact ⟨_, rfl⟩
    | raised e => exact ⟨_, rfl⟩
  · cases hex2 : Sandbox.execute t user emptyHeap Option.none with
    | error f => cases f <;> exact ⟨_, rfl⟩
    | ok v =>
        obtain ⟨h1, nsRef, out, err⟩ := v
        rw [he]
        exact ⟨_, rfl⟩
  · cases hex2 : Sandbox.execute t user emptyHeap Option.none with
    | error f => cases f <;> exact ⟨_, rfl⟩
    | ok v =>
        obtain ⟨h1, nsRef, out, err⟩ := v
        rw [ha]
        exact ⟨_, rfl⟩
  · cases hex2 : Sandbox.execute t user emptyHeap Option.none with
    | error f => cases f <;> exact ⟨_, rfl⟩
    | ok v =>
        obtain ⟨h1, nsRef, out, err⟩ := v
        rw [hn]
        exact ⟨_, rfl⟩
  · rw [hex, htr]
    simp only [hg]
    exact ⟨_, rfl⟩

/-- Claim C9 counterexample: with a grade function returning the non-dict
value 42, result extraction fails (the get attribute lookup raises), an
except clause records the error — so a stage has failed and the error
field is non-None — yet the returned dictionary has success = True,
because line 79 of test_runner.py sets success before lines 80-82 extract
the score. The claimed conjunction fails at this input. -/
theorem C9_counterexample :
    (TestRunner.run_tests 5 trivialSandboxUser nonDictGrader).error =
      some "object has no attribute get: score" ∧
    (TestRunner.run_tests 5 trivialSandboxUser nonDictGrader).success =
      true :=
  ⟨rfl, rfl⟩

/-- Claim C9 (amended): TestRunner.run_tests always returns a result
dictionary (it is a total function of the embedded behaviors), and
whenever a stage fails BEFORE result extraction begins — user validation
or execution, test execution, the missing/non-callable grade entrypoint,
or the grade call itself — the returned dictionary has success = False,
score = 0, max_score = 100 and a non-None error string. A failure inside
result extraction still yields a non-None error but can leave
success = True and earlier-assigned fields in place. -/
theorem C9_pre_extraction_failure_fields (t : Nat) (user : SandboxProgram)
    (tests : RTestProgram) (hpre : preExtractionFailure t user tests) :
    (TestRunner.run_tests t user tests).success = false ∧
    (TestRunner.run_tests t user tests).score = 0 ∧
    (TestRunner.run_tests t user tests).maxScore = 100 ∧
    (TestRunner.run_tests t user tests).error ≠ Option.none := by
  obtain ⟨e, he⟩ := runTests_pre_failure t user tests hpre
  rw [he]
  exact failWith_initial_fields e

/-- Witness for C9_pre_extraction_failure_fields at a concrete failing
run: the submission `import os` fails validation, and the returned
dictionary carries the zero score and the error string. -/
theorem C9_pre_extraction_failure_fields_witness :
    (TestRunner.run_tests 5 importOsUser nonDictGrader).success = false ∧
    (TestRunner.run_tests 5 importOsUser nonDictGrader).score = 0 ∧
    (TestRunner.run_tests 5 importOsUser nonDictGrader).maxScore = 100 ∧
    (TestRunner.run_tests 5 importOsUser nonDictGrader).error ≠
      Option.none :=
  C9_pre_extraction_failure_fields 5 importOsUser nonDictGrader
    (Or.inl ⟨ExecFail.validationError (VErr.disallowedImport "os"), rfl⟩)

/-- Claim C10: Sandbox.execute never mutates the seed namespace dictionary
supplied by the caller — the returned execution namespace is a freshly
allocated object distinct from the seed, and after the call the seed
dictionary holds exactly the entries it held before. -/
theorem C10_seed_not_mutated (t : Nat) (prog : SandboxProgram) (h : Heap)
    (r : Ref) (hr : r < h.next) (h2 : Heap) (nsRef : Ref)
    (out err : String)
    (hok : Sandbox.execute t prog h (some r) =
      Except.ok (h2, nsRef, out, err)) :
    nsRef ≠ r ∧ h2.get r = h.get r := by
  unfold Sandbox.execute at hok
  cases hv : validate_source prog.nodes with
  | error e => rw [hv] at hok; cases hok
  | ok u =>
      rw [hv] at hok
      cases hb : prog.runBody (execNamespace (seedDict h (some r))) with
      | error e => simp only [hb] at hok; cases hok
      | ok v =>
          obtain ⟨d1, o, er⟩ := v
          simp only [hb] at hok
          injection hok with h1
          simp only [Prod.mk.injEq] at h1
          obtain ⟨e1, e2, _, _⟩ := h1
          have hne : h.next ≠ r := ne_of_gt hr
          have hbe : (h.next == r) = false := by
            simp only [beq_eq_false_iff_ne, ne_eq]
            exact hne
          subst e1 e2
          refine ⟨by simpa [Heap.alloc] using hne, ?_⟩
          simp [Heap.get, Heap.set, Heap.alloc, List.find?, hbe]

/-- Witness for C10_seed_not_mutated on a concrete run: a heap with one
seed dict at reference 0; execution returns a distinct namespace
reference and the seed dict reads back unchanged. -/
theorem C10_seed_not_mutated_witness :
    ∃ h2 nsRef out err,
      Sandbox.execute 5 trivialSandboxUser seedHeapEx (some 0) =
        Except.ok (h2, nsRef, out, err) ∧
      nsRef ≠ 0 ∧ Heap.get h2 0 = Heap.get seedHeapEx 0 := by
  refine ⟨_, _, _, _, rfl, ?_⟩
  exact C10_seed_not_mutated 5 trivialSandboxUser seedHeapEx 0
    (by decide) _ _ _ _ rfl

/-- Helper: a node that validate_source accepts imports no disallowed
module. -/
theorem validateNode_ok_no_disallowed {n : Node}
    (h : validateNode n = Except.ok ()) :
    importsDisallowedModule n = false := by
  cases n with
  | importN names =>
      simp only [validateNode] at h
      simp only [importsDisallowedModule]
      cases hf : names.find? (fun m => !allowedModule m) with
      | some m => rw [hf] at h; cases h
      | none =>
          rw [List.any_eq_false]
          intro x hx
          have hfx := List.find?_eq_none.mp hf x hx
          simpa using hfx
  | importFromN m names =>
      simp only [validateNode] at h
      simp only [importsDisallowedModule]
      cases hm : allowedModule m with
      | true => rfl
      | false => simp [hm] at h
  | globalN => simp [validateNode] at h
  | nonlocalN => simp [validateNode] at h
  | withN => simp [validateNode] at h
  | asyncWithN => simp [validateNode] at h
  | ifN => rfl
  | forN => rfl
  | whileN => rfl
  | exceptHandlerN => rfl
  | boolOpN k => rfl
  | otherN => rfl

/-- Helper: validateNode never produces the SyntaxError kind; that kind
arises only from a failed parse. -/
theorem validateNode_error_not_syntax {n : Node} {e : VErr}
    (h : validateNode n = Except.error e) :
    ∀ s, e ≠ VErr.syntaxInvalid s := by
  intro s hc
  subst hc
  cases n with
  | importN names =>
      simp only [validateNode] at h
      split at h
      · simp at h
      · simp at h
  | importFromN m names =>
      simp only [validateNode] at h
      split at h
      · simp at h
      · split at h
        · simp at h
        · split at h
          · simp at h
          · simp at h
  | globalN => simp [validateNode] at h
  | nonlocalN => simp [validateNode] at h
  | withN => simp [validateNode] at h
  | asyncWithN => simp [validateNode] at h
  | ifN => simp [validateNode] at h
  | forN => simp [validateNode] at h
  | whileN => simp [validateNode] at h
  | exceptHandlerN => simp [validateNode] at h
  | boolOpN k => simp [validateNode] at h
  | otherN => simp [validateNode] at h

/-- Helper: a walk sequence containing an import of a disallowed module
makes the validation walk fail, and with a policy-violation kind, never
the SyntaxError kind. -/
theorem validateWalk_error_of_bad {nodes : List Node}
    (hbad : ∃ n ∈ nodes, importsDisallowedModule n = true) :
    ∃ e, validateWalk nodes = Except.error e ∧
      ∀ s, e ≠ VErr.syntaxInvalid s := by
  induction nodes with
  | nil =>
      obtain ⟨n, hn, _⟩ := hbad
      cases hn
  | cons n rest ih =>
      cases hv : validateNode n with
      | error e =>
          refine ⟨e, ?_, validateNode_error_not_syntax hv⟩
          unfold validateWalk
          rw [hv]
      | ok u =>
          cases u
          obtain ⟨m, hm, hdm⟩ := hbad
          rcases List.mem_cons.mp hm with rfl | hmem
          · rw [validateNode_ok_no_disallowed hv] at hdm
            cases hdm
          · obtain ⟨e, he, hns⟩ := ih ⟨m, hmem, hdm⟩
            refine ⟨e, ?_, hns⟩
            unfold validateWalk
            rw [hv, he]

/-- Claim C3: a submission whose parse tree contains an import of a module
absent from the allow-list is rejected during static validation with a
policy-violation kind (never the parse-failure kind), the grading pipeline
performs no execution event at all, and Sandbox.execute likewise fails
validation for every body behavior, every heap and every seed — so no
side effect attributable to executing the submission is observable. -/
theorem C3_deny_before_run (extract : String → List (String × List PyVal))
    (user : UserProgram) (tests : TestProgram) (nodes : List Node)
    (hparse : user.nodes = some nodes)
    (hbad : ∃ n ∈ nodes, importsDisallowedModule n = true) :
    (∃ e, run_user_and_tests extract user tests =
        (Except.error (Failure.validation e), []) ∧
      ∀ s, e ≠ VErr.syntaxInvalid s) ∧
    (∀ (prog : SandboxProgram) (t : Nat) (h : Heap) (seed : Option Ref),
      prog.nodes = some nodes →
      ∃ e, Sandbox.execute t prog h seed =
        Except.error (ExecFail.validationError e)) := by
  obtain ⟨e, he, hns⟩ := validateWalk_error_of_bad hbad
  constructor
  · refine ⟨e, ?_, hns⟩
    unfold run_user_and_tests validate_source
    rw [hparse]
    simp only [he]
  · intro prog t h seed hpn
    refine ⟨e, ?_⟩
    unfold Sandbox.execute validate_source
    rw [hpn]
    simp only [he]

/-- Witness for C3_deny_before_run on the submission `import os`: grading
fails with the policy-violation kind and an empty event trace. -/
theorem C3_deny_before_run_witness :
    ∃ e, run_user_and_tests (fun _ => []) importOsUserProgram absentTests =
        (Except.error (Failure.validation e), []) ∧
      ∀ s, e ≠ VErr.syntaxInvalid s :=
  (C3_deny_before_run (fun _ => []) importOsUserProgram absentTests
    [Node.importN ["os"]] rfl
    ⟨Node.importN ["os"], by simp, by decide⟩).1

/-- Claim C7: when the submission validates and runs, and the grader code
runs but leaves no callable bound to the fixed entrypoint name grade, the
pipeline fails with the distinct contractViolation kind — a different
constructor from every learner-caused failure kind — the entrypoint is
never invoked (no invokedGrade event in the trace) and no score is
produced (the result is an error, not a GradeOutput). -/
theorem C7_contract_violation (extract : String → List (String × List PyVal))
    (user : UserProgram) (tests : TestProgram) (userNs : UserNS)
    (hv : validate_source user.nodes = Except.ok ())
    (hu : user.run = Except.ok userNs)
    (hg : tests.run = Except.ok GradeBinding.absent ∨
      tests.run = Except.ok GradeBinding.notCallable) :
    run_user_and_tests extract user tests =
      (Except.error Failure.contractViolation,
       [Event.execUser, Event.execTests]) := by
  rcases hg with hg | hg <;> simp only [run_user_and_tests, hv, hu, hg]

/-- Witness for C7_contract_violation: an empty submission against a test
program that defines no grade entrypoint. -/
theorem C7_contract_violation_witness :
    run_user_and_tests (fun _ => []) emptyUserProgram absentTests =
      (Except.error Failure.contractViolation,
       [Event.execUser, Event.execTests]) :=
  C7_contract_violation (fun _ => []) emptyUserProgram absentTests []
    rfl rfl (Or.inl rfl)

/-- Claim C8: probe exceptions are isolated. First, an exception on one
probe input makes the loop move to the remaining inputs of the battery
unchanged. Second, the capture of a namespace decomposes entrywise — the
function entries produced for any surrounding entries are unaffected by
whatever any one callable does, and capture completes for every
namespace. Third, a callable that raises on every probe input still
yields its entry, with the recording fields untouched. Fourth, the score,
feedback and max_score of a successful grading run are exactly the
normalization of what the grade entrypoint returned — the probing stage
cannot change the grade. -/
theorem C8_probe_isolation :
    (∀ (f : List PyVal → Except PyExc PyVal) (args : List PyVal)
        (rest : List (List PyVal)) (info : FuncInfo),
      (f args).isOk = false →
      probeLoop f (args :: rest) info = probeLoop f rest info) ∧
    (∀ (expected : List (String × List PyVal)) (pre post : UserNS),
      (captureEntries expected (pre ++ post)).1 =
        (captureEntries expected pre).1 ++
          (captureEntries expected post).1) ∧
    (∀ (f : List PyVal → Except PyExc PyVal)
        (inputs : List (List PyVal)) (info : FuncInfo),
      (∀ args, (f args).isOk = false) →
      probeLoop f inputs info = info) ∧
    (∀ (extract : String → List (String × List PyVal))
        (user : UserProgram) (tests : TestProgram)
        (o : GradeOutput) (evs : List Event),
      run_user_and_tests extract user tests = (Except.ok o, evs) →
      ∃ userNs grade raw,
        user.run = Except.ok userNs ∧
        tests.run = Except.ok (GradeBinding.callable grade) ∧
        grade userNs = Except.ok raw ∧
        appNormalize raw = Except.ok (o.score, o.feedback, o.maxScore)) := by
  refine ⟨?_, ?_, ?_, ?_⟩
  · intro f args rest info hfail
    cases hf : f args with
    | error e => simp only [probeLoop, hf]
    | ok v => rw [hf] at hfail; simp [Except.isOk, Except.toBool] at hfail
  · intro expected pre post
    induction pre with
    | nil => simp [captureEntries]
    | cons entry pre ih =>
        obtain ⟨name, obj⟩ := entry
        by_cases hd : name.startsWith "__" <;>
          cases obj <;>
            simp [captureEntries, hd, ih]
  · intro f inputs info hfail
    induction inputs with
    | nil => rfl
    | cons args rest ih =>
        cases hf : f args with
        | error e =>
            unfold probeLoop
            rw [hf]
            exact ih
        | ok v =>
            have := hfail args
            rw [hf] at this
            simp [Except.isOk, Except.toBool] at this
  · intro extract user tests o evs hrun
    cases hv : validate_source user.nodes with
    | error e => simp [run_user_and_tests, hv] at hrun
    | ok u =>
        cases u
        cases huser : user.run with
        | error e => simp [run_user_and_tests, hv, huser] at hrun
        | ok userNs =>
            cases ht : tests.run with
            | error e => simp [run_user_and_tests, hv, huser, ht] at hrun
            | ok binding =>
                cases binding with
                | absent => simp [run_user_and_tests, hv, huser, ht] at hrun
                | notCallable =>
                    simp [run_user_and_tests, hv, huser, ht] at hrun
                | callable grade =>
                    cases hg : grade userNs with
                    | error e =>
                        simp [run_user_and_tests, hv, huser, ht, hg] at hrun
                    | ok raw =>
                        cases hn : appNormalize raw with
                        | error e =>
                            simp [run_user_and_tests, hv, huser, ht, hg,
                              hn] at hrun
                        | ok trip =>
                            obtain ⟨score, feedback, maxScore⟩ := trip
                            simp only [run_user_and_tests, hv, huser, ht,
                              hg, hn, Prod.mk.injEq,
                              Except.ok.injEq] at hrun
                            obtain ⟨h3, _⟩ := hrun
                            refine ⟨userNs, grade, raw, rfl, rfl, hg, ?_⟩
                            rw [← h3]
                            exact hn

/-- Witness for C8_probe_isolation at a concrete raising probe: the
always-raising callable behavior on the string input does not stop the
probing of the remaining input. -/
theorem C8_probe_isolation_witness :
    probeLoop failingProbe ([PyVal.vStr "test"] :: [[PyVal.vInt 0]])
        { name := "f" } =
      probeLoop failingProbe [[PyVal.vInt 0]] { name := "f" } :=
  C8_probe_isolation.1 failingProbe [PyVal.vStr "test"] [[PyVal.vInt 0]]
    { name := "f" } rfl

end PSB
